import Mathlib

/-!
Shallow embedding of the broiler planning engine
(`computeBroilerResults`, `invertSn3ToSn1`, `buildFarmScenarios` from the
numeric module of the Planning-Assistant repository), with machine reals
modelled as exact rationals.  Inputs that may be missing are `Option ℚ`
(the source's `safeNumber` maps non-finite values to `null`; over ℚ every
value is finite, so a present input is just `some q`).
-/

inductive UnitsModeKey where
  | tonsPerYear_kgPerBird
  | kgPerYear_kgPerBird
  | meatTonsWithYield
  deriving DecidableEq, Repr

structure BroilerInputs where
  sn1TargetBroilerMeat : Option ℚ
  sn2HarvestBirdAvgWeight : Option ℚ
  sn4PlannedMortality : Option ℚ
  sn6CycleTimeDays : Option ℚ
  sn10FarmCapacity : Option ℚ
  sn11NumberOfHouses : Option ℚ
  sn12HouseArea : Option ℚ
  yieldPercent : Option ℚ
  deriving DecidableEq, Repr

structure BroilerConfig where
  unitsMode : UnitsModeKey
  useYield : Bool
  useFullCyclesOnly : Bool
  useLeapYearCycles : Bool
  mortalityAsPercent : Bool
  deriving DecidableEq, Repr

structure BroilerResults where
  sn3HarvestBirdsNumber : Option ℚ
  sn5OverallPlacement : Option ℚ
  sn7CyclesPerYear : Option ℚ
  sn8HarvestPerCycle : Option ℚ
  sn9PlacementPerCycle : Option ℚ
  sn13Density : Option ℚ
  sn14NumberOfFarms : Option ℚ
  hasDivisionByZero : Bool
  deriving DecidableEq, Repr

/-- Mortality normalization inside `computeBroilerResults` (source lines 29-37):
in percent mode a non-positive raw value clamps to 0, otherwise divide by 100;
in fraction mode the raw value is used as-is. -/
def mortalityFraction (inputs : BroilerInputs) (config : BroilerConfig) : Option ℚ :=
  match inputs.sn4PlannedMortality with
  | none => none
  | some raw =>
    if config.mortalityAsPercent then
      if raw ≤ 0 then some 0 else some (raw / 100)
    else some raw

/-- `mortalityValid` (source lines 39-41): the fraction is valid when absent or
in `[0, 1)`. -/
def mortalityValid (mf : Option ℚ) : Bool :=
  match mf with
  | none => true
  | some f => decide (0 ≤ f ∧ f < 1)

/-- SN3 block (source lines 44-74): harvest-birds count and its flag
contribution.  Each step returns `(value?, flagContribution)`. -/
def sn3Step (inputs : BroilerInputs) (config : BroilerConfig) : Option ℚ × Bool :=
  match inputs.sn1TargetBroilerMeat, inputs.sn2HarvestBirdAvgWeight with
  | some sn1, some sn2 =>
    if sn2 = 0 then (none, true)
    else
      match config.unitsMode with
      | UnitsModeKey.tonsPerYear_kgPerBird => (some (sn1 * 1000 / sn2), false)
      | UnitsModeKey.kgPerYear_kgPerBird => (some (sn1 / sn2), false)
      | UnitsModeKey.meatTonsWithYield =>
        if config.useYield then
          match inputs.yieldPercent with
          | some yp =>
            if 0 < yp then (some (sn1 * 1000 * (100 / yp) / sn2), false)
            else (none, false)
          | none => (none, false)
        else (none, false)
  | _, _ => (none, false)

/-- SN5 block (source lines 77-85): overall placement `birds / (1 - f)`. -/
def sn5Step (sn3v mf : Option ℚ) : Option ℚ × Bool :=
  match sn3v, mf with
  | some birds, some f =>
    if 1 - f = 0 then (none, true) else (some (birds / (1 - f)), false)
  | _, _ => (none, false)

/-- SN7 block (source lines 88-101): cycles per year, with the leap-year and
whole-cycles-only toggles.  `Math.floor` is mathematical floor. -/
def sn7Step (inputs : BroilerInputs) (config : BroilerConfig) : Option ℚ × Bool :=
  match inputs.sn6CycleTimeDays with
  | some d =>
    if d = 0 then (none, true)
    else
      let daysPerYear : ℚ := if config.useLeapYearCycles then 365.25 else 365
      let v := daysPerYear / d
      (some (if config.useFullCyclesOnly then (⌊v⌋ : ℚ) else v), false)
  | none => (none, false)

/-- SN8 block (source lines 104-111): harvest per cycle `birds / cyclesPerYear`. -/
def sn8Step (sn3v sn7v : Option ℚ) : Option ℚ × Bool :=
  match sn3v, sn7v with
  | some birds, some cycles =>
    if cycles = 0 then (none, true) else (some (birds / cycles), false)
  | _, _ => (none, false)

/-- SN9 block (source lines 114-122): placement per cycle
`harvestPerCycle / (1 - f)`. -/
def sn9Step (sn8v mf : Option ℚ) : Option ℚ × Bool :=
  match sn8v, mf with
  | some harvest, some f =>
    if 1 - f = 0 then (none, true) else (some (harvest / (1 - f)), false)
  | _, _ => (none, false)

/-- SN13 block (source lines 125-137): stocking density
`capacity / (houses * area)`. -/
def sn13Step (inputs : BroilerInputs) : Option ℚ × Bool :=
  match inputs.sn10FarmCapacity, inputs.sn11NumberOfHouses, inputs.sn12HouseArea with
  | some cap, some houses, some area =>
    if houses * area = 0 then (none, true)
    else (some (cap / (houses * area)), false)
  | _, _, _ => (none, false)

/-- SN14 block (source lines 140-148): farms needed
`placementPerCycle / capacity`. -/
def sn14Step (sn9v cap10 : Option ℚ) : Option ℚ × Bool :=
  match sn9v, cap10 with
  | some placement, some cap =>
    if cap = 0 then (none, true) else (some (placement / cap), false)
  | _, _ => (none, false)

/-- `computeBroilerResults` (source lines 12-165): wires the step blocks in
source order; the single mutable `hasDivisionByZero` boolean of the source is
the logical OR of every block's flag contribution, plus the trailing
mortality-validity check (source lines 150-153). -/
def computeBroilerResults (inputs : BroilerInputs) (config : BroilerConfig) :
    BroilerResults :=
  { sn3HarvestBirdsNumber := (sn3Step inputs config).1
    sn5OverallPlacement :=
      (sn5Step (sn3Step inputs config).1 (mortalityFraction inputs config)).1
    sn7CyclesPerYear := (sn7Step inputs config).1
    sn8HarvestPerCycle :=
      (sn8Step (sn3Step inputs config).1 (sn7Step inputs config).1).1
    sn9PlacementPerCycle :=
      (sn9Step (sn8Step (sn3Step inputs config).1 (sn7Step inputs config).1).1
        (mortalityFraction inputs config)).1
    sn13Density := (sn13Step inputs).1
    sn14NumberOfFarms :=
      (sn14Step
        (sn9Step (sn8Step (sn3Step inputs config).1 (sn7Step inputs config).1).1
          (mortalityFraction inputs config)).1
        inputs.sn10FarmCapacity).1
    hasDivisionByZero :=
      (sn3Step inputs config).2 ||
      (sn5Step (sn3Step inputs config).1 (mortalityFraction inputs config)).2 ||
      (sn7Step inputs config).2 ||
      (sn8Step (sn3Step inputs config).1 (sn7Step inputs config).1).2 ||
      (sn9Step (sn8Step (sn3Step inputs config).1 (sn7Step inputs config).1).1
        (mortalityFraction inputs config)).2 ||
      (sn13Step inputs).2 ||
      (sn14Step
        (sn9Step (sn8Step (sn3Step inputs config).1 (sn7Step inputs config).1).1
          (mortalityFraction inputs config)).1
        inputs.sn10FarmCapacity).2 ||
      !mortalityValid (mortalityFraction inputs config) }

/-- `invertSn3ToSn1` (source lines 167-192): algebraic inverse of the SN3
units-mode formula.  The source's `!yieldPercent || yieldPercent <= 0` guard
(null, zero or negative) is exactly `yp ≤ 0` on a present value. -/
def invertSn3ToSn1 (sn3v : ℚ) (inputs : BroilerInputs) (config : BroilerConfig) :
    Option ℚ :=
  match inputs.sn2HarvestBirdAvgWeight with
  | none => none
  | some sn2 =>
    if sn2 = 0 then none
    else
      match config.unitsMode with
      | UnitsModeKey.tonsPerYear_kgPerBird => some (sn3v * sn2 / 1000)
      | UnitsModeKey.kgPerYear_kgPerBird => some (sn3v * sn2)
      | UnitsModeKey.meatTonsWithYield =>
        if config.useYield then
          match inputs.yieldPercent with
          | some yp =>
            if yp ≤ 0 then none
            else some (sn3v * sn2 * yp / (100 * 1000))
          | none => none
        else none

structure FarmsScenarioRow where
  label : String
  farms : Option ℚ
  sn1TargetBroilerMeat : Option ℚ
  sn3HarvestBirdsNumber : Option ℚ
  sn9PlacementPerCycle : Option ℚ
  deriving DecidableEq, Repr

/-- The scenario module's own mortality fraction (source lines 209-214):
unlike `mortalityFraction` it divides by 100 in percent mode WITHOUT clamping
non-positive raw values to 0. -/
def scenarioMortalityFraction (inputs : BroilerInputs) (config : BroilerConfig) :
    Option ℚ :=
  match inputs.sn4PlannedMortality with
  | none => none
  | some raw =>
    if config.mortalityAsPercent then some (raw / 100) else some raw

/-- `makeRowForFarms` (source lines 218-256), the closure inside
`buildFarmScenarios`, with its captured variables (`mFraction`, `sn7`, `sn10`,
`inputs`, `config`) passed explicitly.  Over ℚ the `Number.isFinite(farms)`
test is always true. -/
def makeRowForFarms (mFraction sn7v sn10v : Option ℚ) (inputs : BroilerInputs)
    (config : BroilerConfig) (label : String) (farms : Option ℚ) :
    FarmsScenarioRow :=
  match farms, sn10v, mFraction, sn7v with
  | some f, some cap, some m, some cyc =>
    if f ≤ 0 ∨ cap ≤ 0 ∨ m < 0 ∨ 1 ≤ m ∨ cyc ≤ 0 then
      { label := label, farms := some f, sn1TargetBroilerMeat := none,
        sn3HarvestBirdsNumber := none, sn9PlacementPerCycle := none }
    else
      let sn9v := f * cap
      let sn8v := sn9v * (1 - m)
      let sn3v := sn8v * cyc
      { label := label, farms := some f,
        sn1TargetBroilerMeat := invertSn3ToSn1 sn3v inputs config,
        sn3HarvestBirdsNumber := some sn3v, sn9PlacementPerCycle := some sn9v }
  | _, _, _, _ =>
    { label := label, farms := farms, sn1TargetBroilerMeat := none,
      sn3HarvestBirdsNumber := none, sn9PlacementPerCycle := none }

/-- `buildFarmScenarios` (source lines 202-271): three rows, built from the
base farm count, its ceiling and its floor. -/
def buildFarmScenarios (inputs : BroilerInputs) (config : BroilerConfig)
    (baseResults : BroilerResults) : List FarmsScenarioRow :=
  let baseFarms := baseResults.sn14NumberOfFarms
  let mFraction := scenarioMortalityFraction inputs config
  let sn7v := baseResults.sn7CyclesPerYear
  let sn10v := inputs.sn10FarmCapacity
  [ makeRowForFarms mFraction sn7v sn10v inputs config "Base (exact farms)"
      baseFarms,
    makeRowForFarms mFraction sn7v sn10v inputs config "Rounded up farms"
      (baseFarms.map fun f => ((⌈f⌉ : ℤ) : ℚ)),
    makeRowForFarms mFraction sn7v sn10v inputs config "Floored farms"
      (baseFarms.map fun f => ((⌊f⌋ : ℤ) : ℚ)) ]

/-! ### Concrete example inputs and configurations -/

/-- A fully populated, fully valid input: target 500 t/yr, weight 2.2 kg/bird,
mortality 5 %, 42-day cycles, 30000-bird farms, 2 houses of 1000 m²,
yield 70 %. -/
def exInputs : BroilerInputs :=
  { sn1TargetBroilerMeat := some 500
    sn2HarvestBirdAvgWeight := some (11/5)
    sn4PlannedMortality := some 5
    sn6CycleTimeDays := some 42
    sn10FarmCapacity := some 30000
    sn11NumberOfHouses := some 2
    sn12HouseArea := some 1000
    yieldPercent := some 70 }

def exConfig : BroilerConfig :=
  { unitsMode := UnitsModeKey.tonsPerYear_kgPerBird
    useYield := false
    useFullCyclesOnly := false
    useLeapYearCycles := false
    mortalityAsPercent := true }

def leapConfig : BroilerConfig := { exConfig with useLeapYearCycles := true }

def wholeConfig : BroilerConfig := { exConfig with useFullCyclesOnly := true }

def wholeLeapConfig : BroilerConfig :=
  { exConfig with useFullCyclesOnly := true, useLeapYearCycles := true }

def yieldConfig : BroilerConfig :=
  { exConfig with unitsMode := UnitsModeKey.meatTonsWithYield, useYield := true }

/-- All inputs absent. -/
def noneInputs : BroilerInputs :=
  { sn1TargetBroilerMeat := none
    sn2HarvestBirdAvgWeight := none
    sn4PlannedMortality := none
    sn6CycleTimeDays := none
    sn10FarmCapacity := none
    sn11NumberOfHouses := none
    sn12HouseArea := none
    yieldPercent := none }

/-- Otherwise-valid input with `cycleDays = 0`. -/
def zeroCycleInputs : BroilerInputs := { exInputs with sn6CycleTimeDays := some 0 }

/-- The spec's density example: houses = 2, area = 0, capacity = 100. -/
def densityZeroInputs : BroilerInputs :=
  { exInputs with sn10FarmCapacity := some 100, sn12HouseArea := some 0 }

/-- Percent-mode mortality of 200 → normalized fraction 2, out of range. -/
def c1Inputs : BroilerInputs := { exInputs with sn4PlannedMortality := some 200 }

/-- Percent-mode mortality of −5 (negative raw input). -/
def negMortInputs : BroilerInputs := { exInputs with sn4PlannedMortality := some (-5) }

/-- Yield-mode input with a zero yield percent. -/
def zeroYieldInputs : BroilerInputs := { exInputs with yieldPercent := some 0 }

/-- A base `Results` record with exact farms = 2.4 for the scenario-rounding
example. -/
def exBase : BroilerResults :=
  { sn3HarvestBirdsNumber := none
    sn5OverallPlacement := none
    sn7CyclesPerYear := some 8
    sn8HarvestPerCycle := none
    sn9PlacementPerCycle := none
    sn13Density := none
    sn14NumberOfFarms := some (12/5)
    hasDivisionByZero := false }

/-! ### Projection equations for `computeBroilerResults` -/

lemma cbr_sn3 (i : BroilerInputs) (c : BroilerConfig) :
    (computeBroilerResults i c).sn3HarvestBirdsNumber = (sn3Step i c).1 := rfl

lemma cbr_sn5 (i : BroilerInputs) (c : BroilerConfig) :
    (computeBroilerResults i c).sn5OverallPlacement =
      (sn5Step (sn3Step i c).1 (mortalityFraction i c)).1 := rfl

lemma cbr_sn7 (i : BroilerInputs) (c : BroilerConfig) :
    (computeBroilerResults i c).sn7CyclesPerYear = (sn7Step i c).1 := rfl

lemma cbr_sn8 (i : BroilerInputs) (c : BroilerConfig) :
    (computeBroilerResults i c).sn8HarvestPerCycle =
      (sn8Step (sn3Step i c).1 (sn7Step i c).1).1 := rfl

lemma cbr_sn9 (i : BroilerInputs) (c : BroilerConfig) :
    (computeBroilerResults i c).sn9PlacementPerCycle =
      (sn9Step (sn8Step (sn3Step i c).1 (sn7Step i c).1).1
        (mortalityFraction i c)).1 := rfl

lemma cbr_sn13 (i : BroilerInputs) (c : BroilerConfig) :
    (computeBroilerResults i c).sn13Density = (sn13Step i).1 := rfl

lemma cbr_sn14 (i : BroilerInputs) (c : BroilerConfig) :
    (computeBroilerResults i c).sn14NumberOfFarms =
      (sn14Step
        (sn9Step (sn8Step (sn3Step i c).1 (sn7Step i c).1).1
          (mortalityFraction i c)).1
        i.sn10FarmCapacity).1 := rfl

lemma cbr_flag (i : BroilerInputs) (c : BroilerConfig) :
    (computeBroilerResults i c).hasDivisionByZero =
      ((sn3Step i c).2 ||
       (sn5Step (sn3Step i c).1 (mortalityFraction i c)).2 ||
       (sn7Step i c).2 ||
       (sn8Step (sn3Step i c).1 (sn7Step i c).1).2 ||
       (sn9Step (sn8Step (sn3Step i c).1 (sn7Step i c).1).1
         (mortalityFraction i c)).2 ||
       (sn13Step i).2 ||
       (sn14Step
         (sn9Step (sn8Step (sn3Step i c).1 (sn7Step i c).1).1
           (mortalityFraction i c)).1
         i.sn10FarmCapacity).2 ||
       !mortalityValid (mortalityFraction i c)) := rfl

/-! ### Per-step behaviour lemmas -/

lemma sn3Step_none (i : BroilerInputs) (c : BroilerConfig)
    (h : i.sn1TargetBroilerMeat = none ∨ i.sn2HarvestBirdAvgWeight = none) :
    sn3Step i c = (none, false) := by
  rcases h with h | h <;>
    cases h1 : i.sn1TargetBroilerMeat <;> cases h2 : i.sn2HarvestBirdAvgWeight <;>
      simp_all [sn3Step]

lemma sn3Step_zero_weight (i : BroilerInputs) (c : BroilerConfig) (t : ℚ)
    (h1 : i.sn1TargetBroilerMeat = some t)
    (h2 : i.sn2HarvestBirdAvgWeight = some 0) :
    sn3Step i c = (none, true) := by
  simp [sn3Step, h1, h2]

lemma sn3Step_flag (i : BroilerInputs) (c : BroilerConfig)
    (h : (sn3Step i c).2 = true) :
    i.sn1TargetBroilerMeat.isSome ∧ i.sn2HarvestBirdAvgWeight = some 0 := by
  cases h1 : i.sn1TargetBroilerMeat <;> cases h2 : i.sn2HarvestBirdAvgWeight <;>
    simp [sn3Step, h1, h2] at h ⊢
  case some.some t w =>
    by_cases hw : w = 0
    · exact hw
    · exfalso
      rw [if_neg hw] at h
      cases hm : c.unitsMode <;> rw [hm] at h <;> simp at h
      cases hy : c.useYield <;> rw [hy] at h <;> simp at h
      rcases h3 : i.yieldPercent with _ | yp <;> rw [h3] at h <;> simp at h
      by_cases hyp : 0 < yp
      · rw [if_pos hyp] at h; simp at h
      · rw [if_neg hyp] at h; simp at h

lemma sn5Step_none (a b : Option ℚ) (h : a = none ∨ b = none) :
    sn5Step a b = (none, false) := by
  cases a <;> cases b <;> simp_all [sn5Step]

lemma sn5Step_flag (a b : Option ℚ) (h : (sn5Step a b).2 = true) :
    a.isSome ∧ b = some 1 := by
  unfold sn5Step at h
  split at h
  next x f =>
    split at h
    next hf =>
      have : f = 1 := by linarith [sub_eq_zero.mp hf]
      simp [this]
    next hf => simp at h
  next => simp at h

lemma sn7Step_none (i : BroilerInputs) (c : BroilerConfig)
    (h : i.sn6CycleTimeDays = none) : sn7Step i c = (none, false) := by
  simp [sn7Step, h]

lemma sn7Step_zero (i : BroilerInputs) (c : BroilerConfig)
    (h : i.sn6CycleTimeDays = some 0) : sn7Step i c = (none, true) := by
  simp [sn7Step, h]

lemma sn7Step_flag (i : BroilerInputs) (c : BroilerConfig)
    (h : (sn7Step i c).2 = true) : i.sn6CycleTimeDays = some 0 := by
  rcases h6 : i.sn6CycleTimeDays with _ | d <;> rw [sn7Step] at h <;>
    simp [h6] at h
  rcases eq_or_ne d 0 with hd | hd
  · simp [hd]
  · simp [if_neg hd] at h

lemma sn8Step_none (a b : Option ℚ) (h : a = none ∨ b = none) :
    sn8Step a b = (none, false) := by
  cases a <;> cases b <;> simp_all [sn8Step]

lemma sn8Step_zero (b : ℚ) : sn8Step (some b) (some 0) = (none, true) := by
  simp [sn8Step]

lemma sn8Step_flag (a b : Option ℚ) (h : (sn8Step a b).2 = true) :
    a.isSome ∧ b = some 0 := by
  unfold sn8Step at h
  split at h
  next x y =>
    split at h
    next hy => simp [hy]
    next hy => simp at h
  next => simp at h

lemma sn9Step_none (a b : Option ℚ) (h : a = none ∨ b = none) :
    sn9Step a b = (none, false) := by
  cases a <;> cases b <;> simp_all [sn9Step]

lemma sn9Step_flag (a b : Option ℚ) (h : (sn9Step a b).2 = true) :
    a.isSome ∧ b = some 1 := by
  unfold sn9Step at h
  split at h
  next x f =>
    split at h
    next hf =>
      have : f = 1 := by linarith [sub_eq_zero.mp hf]
      simp [this]
    next hf => simp at h
  next => simp at h

lemma sn13Step_none (i : BroilerInputs)
    (h : i.sn10FarmCapacity = none ∨ i.sn11NumberOfHouses = none ∨
      i.sn12HouseArea = none) :
    sn13Step i = (none, false) := by
  cases h10 : i.sn10FarmCapacity <;> cases h11 : i.sn11NumberOfHouses <;>
    cases h12 : i.sn12HouseArea <;> simp_all [sn13Step]

lemma sn13Step_flag (i : BroilerInputs) (h : (sn13Step i).2 = true) :
    i.sn10FarmCapacity.isSome ∧
      ∃ hh aa, i.sn11NumberOfHouses = some hh ∧ i.sn12HouseArea = some aa ∧
        hh * aa = 0 := by
  cases h10 : i.sn10FarmCapacity <;> cases h11 : i.sn11NumberOfHouses <;>
    cases h12 : i.sn12HouseArea <;> simp [sn13Step, h10, h11, h12] at h
  case some.some.some cap hh aa =>
    by_cases hz : hh = 0 ∨ aa = 0
    · exact ⟨rfl, hh, aa, rfl, rfl, mul_eq_zero.mpr hz⟩
    · rw [if_neg hz] at h; simp at h

lemma sn14Step_none (a b : Option ℚ) (h : a = none ∨ b = none) :
    sn14Step a b = (none, false) := by
  cases a <;> cases b <;> simp_all [sn14Step]

lemma sn14Step_zero (p : ℚ) : sn14Step (some p) (some 0) = (none, true) := by
  simp [sn14Step]

lemma sn14Step_flag (a b : Option ℚ) (h : (sn14Step a b).2 = true) :
    a.isSome ∧ b = some 0 := by
  unfold sn14Step at h
  split at h
  next x y =>
    split at h
    next hy => simp [hy]
    next hy => simp at h
  next => simp at h

lemma mortalityFraction_none (i : BroilerInputs) (c : BroilerConfig)
    (h : i.sn4PlannedMortality = none) : mortalityFraction i c = none := by
  simp [mortalityFraction, h]

lemma mortalityValid_false (mf : Option ℚ) (h : mortalityValid mf = false) :
    ∃ f, mf = some f ∧ ¬(0 ≤ f ∧ f < 1) := by
  cases' mf with f
  · simp [mortalityValid] at h
  · refine ⟨f, rfl, ?_⟩
    simpa [mortalityValid] using h

/-! ### Lemmas about `makeRowForFarms` -/

lemma makeRow_farms (mf s7 s10 : Option ℚ) (i : BroilerInputs)
    (c : BroilerConfig) (lbl : String) (farms : Option ℚ) :
    (makeRowForFarms mf s7 s10 i c lbl farms).farms = farms := by
  unfold makeRowForFarms
  split <;> first | (split <;> rfl) | rfl

lemma makeRow_guard_fail (mf s7 s10 : Option ℚ) (i : BroilerInputs)
    (c : BroilerConfig) (lbl : String) (farms : Option ℚ)
    (h : ¬ ∃ f cap m cyc, farms = some f ∧ 0 < f ∧ s10 = some cap ∧ 0 < cap ∧
      mf = some m ∧ 0 ≤ m ∧ m < 1 ∧ s7 = some cyc ∧ 0 < cyc) :
    makeRowForFarms mf s7 s10 i c lbl farms =
      { label := lbl, farms := farms, sn1TargetBroilerMeat := none,
        sn3HarvestBirdsNumber := none, sn9PlacementPerCycle := none } := by
  unfold makeRowForFarms
  split
  next f cap m cyc =>
    have hguard : f ≤ 0 ∨ cap ≤ 0 ∨ m < 0 ∨ 1 ≤ m ∨ cyc ≤ 0 := by
      by_contra hg
      push_neg at hg
      obtain ⟨hf, hcap, hm, hm1, hcyc⟩ := hg
      exact h ⟨f, cap, m, cyc, rfl, hf, rfl, hcap, rfl, hm, hm1, rfl, hcyc⟩
    rw [if_pos hguard]
  all_goals rfl

lemma makeRow_sn9 (mf s7 s10 : Option ℚ) (i : BroilerInputs)
    (c : BroilerConfig) (lbl : String) (farms : Option ℚ) (p : ℚ)
    (h : (makeRowForFarms mf s7 s10 i c lbl farms).sn9PlacementPerCycle = some p) :
    ∃ f cap, farms = some f ∧ s10 = some cap ∧ p = f * cap := by
  unfold makeRowForFarms at h
  split at h
  next f cap m cyc =>
    split at h
    · simp at h
    · simp only [Option.some.injEq] at h
      exact ⟨f, cap, rfl, rfl, h.symm⟩
  all_goals simp at h

/-! ### Claim theorems -/

/-- C4: with target and weight present and weight nonzero, `derive` computes
the harvest-birds count per the units mode: mode `tonsPerYear_kgPerBird` gives
`target * 1000 / weight`; mode `kgPerYear_kgPerBird` gives `target / weight`;
mode `meatTonsWithYield` with `useYield` and a positive yield percent gives
`target * 1000 * (100 / yieldPercent) / weight`. -/
theorem C4_birds_formula (inputs : BroilerInputs) (config : BroilerConfig)
    (t w : ℚ) (h1 : inputs.sn1TargetBroilerMeat = some t)
    (h2 : inputs.sn2HarvestBirdAvgWeight = some w) (hw : w ≠ 0) :
    (config.unitsMode = UnitsModeKey.tonsPerYear_kgPerBird →
      (computeBroilerResults inputs config).sn3HarvestBirdsNumber =
        some (t * 1000 / w)) ∧
    (config.unitsMode = UnitsModeKey.kgPerYear_kgPerBird →
      (computeBroilerResults inputs config).sn3HarvestBirdsNumber =
        some (t / w)) ∧
    (∀ y, config.unitsMode = UnitsModeKey.meatTonsWithYield →
      config.useYield = true → inputs.yieldPercent = some y → 0 < y →
      (computeBroilerResults inputs config).sn3HarvestBirdsNumber =
        some (t * 1000 * (100 / y) / w)) := by
  refine ⟨fun hm => ?_, fun hm => ?_, fun y hm hy h3 hyp => ?_⟩
  · simp [cbr_sn3, sn3Step, h1, h2, hw, hm]
  · simp [cbr_sn3, sn3Step, h1, h2, hw, hm]
  · simp [cbr_sn3, sn3Step, h1, h2, hw, hm, hy, h3, hyp]

/-- Witness for C4: target = 500 t/yr and weight = 2.2 kg/bird in mode
`tonsPerYear_kgPerBird` give birds = 500 * 1000 / 2.2 = 2500000/11
(≈ 227272.73). -/
theorem C4_birds_formula_witness :
    exInputs.sn1TargetBroilerMeat = some 500 ∧
    exInputs.sn2HarvestBirdAvgWeight = some (11/5) ∧
    ((11/5 : ℚ) ≠ 0) ∧
    (computeBroilerResults exInputs exConfig).sn3HarvestBirdsNumber =
      some (2500000 / 11) := by
  refine ⟨rfl, rfl, by norm_num, ?_⟩
  have h :=
    (C4_birds_formula exInputs exConfig 500 (11/5) rfl rfl (by norm_num)).1 rfl
  rw [h]
  norm_num

/-- C5: in units mode `tonsPerYear_kgPerBird` with target and a nonzero weight
present, inverting (`invertSn3ToSn1`) the birds value produced by the forward
formula returns the original target, exactly over ℚ. -/
theorem C5_roundtrip (inputs : BroilerInputs) (config : BroilerConfig)
    (t w : ℚ) (hm : config.unitsMode = UnitsModeKey.tonsPerYear_kgPerBird)
    (h1 : inputs.sn1TargetBroilerMeat = some t)
    (h2 : inputs.sn2HarvestBirdAvgWeight = some w) (hw : w ≠ 0) :
    ∃ b, (computeBroilerResults inputs config).sn3HarvestBirdsNumber = some b ∧
      invertSn3ToSn1 b inputs config = some t := by
  refine ⟨t * 1000 / w, ?_, ?_⟩
  · simp [cbr_sn3, sn3Step, h1, h2, hw, hm]
  · have hinv : t * 1000 / w * w / 1000 = t := by field_simp
    simp [invertSn3ToSn1, h2, hw, hm, hinv]

/-- Witness for C5 at target 500, weight 2.2. -/
theorem C5_roundtrip_witness :
    exConfig.unitsMode = UnitsModeKey.tonsPerYear_kgPerBird ∧
    exInputs.sn1TargetBroilerMeat = some 500 ∧
    exInputs.sn2HarvestBirdAvgWeight = some (11/5) ∧
    ((11/5 : ℚ) ≠ 0) ∧
    ∃ b, (computeBroilerResults exInputs exConfig).sn3HarvestBirdsNumber =
        some b ∧
      invertSn3ToSn1 b exInputs exConfig = some 500 :=
  ⟨rfl, rfl, rfl, by norm_num,
    C5_roundtrip exInputs exConfig 500 (11/5) rfl rfl rfl (by norm_num)⟩

/-- C9: for present nonzero cycleDays, cycles-per-year is (365.25 if the
leap-year toggle is on, else 365) divided by cycleDays, with mathematical
floor (`Int.floor`, not truncation) applied exactly when the whole-cycles-only
toggle is on. -/
theorem C9_cycles_formula (inputs : BroilerInputs) (config : BroilerConfig)
    (d : ℚ) (h : inputs.sn6CycleTimeDays = some d) (hd : d ≠ 0) :
    (computeBroilerResults inputs config).sn7CyclesPerYear =
      some (if config.useFullCyclesOnly
        then ((⌊(if config.useLeapYearCycles then (365.25 : ℚ) else 365) / d⌋ : ℤ) : ℚ)
        else (if config.useLeapYearCycles then (365.25 : ℚ) else 365) / d) := by
  simp [cbr_sn7, sn7Step, h, hd]

/-- Witness for C9 at cycleDays = 42: toggle off gives 365/42 (≈ 8.690), the
leap toggle gives 365.25/42 (≈ 8.696), and whole-cycles-only floors both
to 8. -/
theorem C9_cycles_formula_witness :
    exInputs.sn6CycleTimeDays = some 42 ∧ ((42 : ℚ) ≠ 0) ∧
    (computeBroilerResults exInputs exConfig).sn7CyclesPerYear =
      some (365 / 42) ∧
    (computeBroilerResults exInputs leapConfig).sn7CyclesPerYear =
      some (365.25 / 42) ∧
    (computeBroilerResults exInputs wholeConfig).sn7CyclesPerYear = some 8 ∧
    (computeBroilerResults exInputs wholeLeapConfig).sn7CyclesPerYear =
      some 8 := by
  refine ⟨rfl, by norm_num, ?_, ?_, ?_, ?_⟩
  · rw [C9_cycles_formula exInputs exConfig 42 rfl (by norm_num)]
    norm_num [exConfig]
  · rw [C9_cycles_formula exInputs leapConfig 42 rfl (by norm_num)]
    norm_num [leapConfig, exConfig]
  · rw [C9_cycles_formula exInputs wholeConfig 42 rfl (by norm_num)]
    norm_num [wholeConfig, exConfig]
  · rw [C9_cycles_formula exInputs wholeLeapConfig 42 rfl (by norm_num)]
    norm_num [wholeLeapConfig, exConfig]

/-- C2: `derive` is total by construction (a Lean function into
`BroilerResults`), and whenever a step's denominator is zero with that step's
operands present — weight = 0, cycleDays = 0, computed cyclesPerYear = 0,
houses * area = 0, capacity = 0 — the step's metric is absent and
`hasDivisionByZero` is true. -/
theorem C2_zero_denominators (inputs : BroilerInputs) (config : BroilerConfig) :
    (∀ t, inputs.sn1TargetBroilerMeat = some t →
      inputs.sn2HarvestBirdAvgWeight = some 0 →
      (computeBroilerResults inputs config).sn3HarvestBirdsNumber = none ∧
      (computeBroilerResults inputs config).hasDivisionByZero = true) ∧
    (inputs.sn6CycleTimeDays = some 0 →
      (computeBroilerResults inputs config).sn7CyclesPerYear = none ∧
      (computeBroilerResults inputs config).hasDivisionByZero = true) ∧
    ((computeBroilerResults inputs config).sn3HarvestBirdsNumber.isSome →
      (computeBroilerResults inputs config).sn7CyclesPerYear = some 0 →
      (computeBroilerResults inputs config).sn8HarvestPerCycle = none ∧
      (computeBroilerResults inputs config).hasDivisionByZero = true) ∧
    (∀ hh aa cp, inputs.sn11NumberOfHouses = some hh →
      inputs.sn12HouseArea = some aa → inputs.sn10FarmCapacity = some cp →
      hh * aa = 0 →
      (computeBroilerResults inputs config).sn13Density = none ∧
      (computeBroilerResults inputs config).hasDivisionByZero = true) ∧
    ((computeBroilerResults inputs config).sn9PlacementPerCycle.isSome →
      inputs.sn10FarmCapacity = some 0 →
      (computeBroilerResults inputs config).sn14NumberOfFarms = none ∧
      (computeBroilerResults inputs config).hasDivisionByZero = true) := by
  refine ⟨?_, ?_, ?_, ?_, ?_⟩
  · intro t h1 h2
    have hs := sn3Step_zero_weight inputs config t h1 h2
    constructor
    · rw [cbr_sn3, hs]
    · rw [cbr_flag, hs]; simp
  · intro h6
    have hs := sn7Step_zero inputs config h6
    constructor
    · rw [cbr_sn7, hs]
    · rw [cbr_flag, hs]; simp
  · intro h3s h70
    rw [cbr_sn3] at h3s
    rw [cbr_sn7] at h70
    obtain ⟨b, hb⟩ := Option.isSome_iff_exists.mp h3s
    constructor
    · rw [cbr_sn8, hb, h70, sn8Step_zero]
    · rw [cbr_flag, hb, h70]
      simp [sn8Step_zero]
  · intro hh aa cp h11 h12 h10 hz
    have hs : sn13Step inputs = (none, true) := by
      rcases mul_eq_zero.mp hz with hz0 | hz0 <;> subst hz0 <;>
        simp [sn13Step, h10, h11, h12]
    constructor
    · rw [cbr_sn13, hs]
    · rw [cbr_flag, hs]; simp
  · intro h9s h10
    rw [cbr_sn9] at h9s
    obtain ⟨p, hp⟩ := Option.isSome_iff_exists.mp h9s
    constructor
    · rw [cbr_sn14, hp, h10, sn14Step_zero]
    · rw [cbr_flag, hp, h10]
      simp [sn14Step_zero]

/-- Witness for C2: the spec's two concrete cases — `cycleDays = 0` gives
absent cyclesPerYear with the flag set, and houses = 2, area = 0,
capacity = 100 gives absent density with the flag set. -/
theorem C2_zero_denominators_witness :
    ((computeBroilerResults zeroCycleInputs exConfig).sn7CyclesPerYear = none ∧
      (computeBroilerResults zeroCycleInputs exConfig).hasDivisionByZero = true) ∧
    ((computeBroilerResults densityZeroInputs exConfig).sn13Density = none ∧
      (computeBroilerResults densityZeroInputs exConfig).hasDivisionByZero = true) :=
  ⟨(C2_zero_denominators zeroCycleInputs exConfig).2.1 rfl,
    (C2_zero_denominators densityZeroInputs exConfig).2.2.2.1 2 0 100 rfl rfl rfl
      (by norm_num)⟩

/-- C8: in units mode `meatTonsWithYield` with `useYield` on, target present and
a nonzero weight present, an absent or non-positive yield percent makes the
harvest-birds count and everything downstream of it absent, and that condition
contributes no `hasDivisionByZero` flag (the SN3 block returns `(none, false)`). -/
theorem C8_yield_guard (inputs : BroilerInputs) (config : BroilerConfig)
    (t w : ℚ) (hm : config.unitsMode = UnitsModeKey.meatTonsWithYield)
    (hy : config.useYield = true)
    (h1 : inputs.sn1TargetBroilerMeat = some t)
    (h2 : inputs.sn2HarvestBirdAvgWeight = some w) (hw : w ≠ 0)
    (hyp : inputs.yieldPercent = none ∨
      ∃ y, inputs.yieldPercent = some y ∧ y ≤ 0) :
    (computeBroilerResults inputs config).sn3HarvestBirdsNumber = none ∧
    (computeBroilerResults inputs config).sn5OverallPlacement = none ∧
    (computeBroilerResults inputs config).sn8HarvestPerCycle = none ∧
    (computeBroilerResults inputs config).sn9PlacementPerCycle = none ∧
    (computeBroilerResults inputs config).sn14NumberOfFarms = none ∧
    sn3Step inputs config = (none, false) := by
  have hs3 : sn3Step inputs config = (none, false) := by
    rcases hyp with hyn | ⟨y, hye, hyle⟩
    · simp [sn3Step, h1, h2, hw, hm, hy, hyn]
    · simp [sn3Step, h1, h2, hw, hm, hy, hye, not_lt.mpr hyle]
  refine ⟨?_, ?_, ?_, ?_, ?_, hs3⟩
  · rw [cbr_sn3, hs3]
  · simp [cbr_sn5, hs3, sn5Step_none]
  · simp [cbr_sn8, hs3, sn8Step_none]
  · simp [cbr_sn9, hs3, sn8Step_none, sn9Step_none]
  · simp [cbr_sn14, hs3, sn8Step_none, sn9Step_none, sn14Step_none]

/-- Witness for C8: yield mode with yield percent = 0 on otherwise fully valid
inputs — no birds value and no flag at all. -/
theorem C8_yield_guard_witness :
    yieldConfig.unitsMode = UnitsModeKey.meatTonsWithYield ∧
    yieldConfig.useYield = true ∧
    zeroYieldInputs.sn1TargetBroilerMeat = some 500 ∧
    zeroYieldInputs.sn2HarvestBirdAvgWeight = some (11/5) ∧
    ((11/5 : ℚ) ≠ 0) ∧
    (∃ y, zeroYieldInputs.yieldPercent = some y ∧ y ≤ 0) ∧
    (computeBroilerResults zeroYieldInputs yieldConfig).sn3HarvestBirdsNumber =
      none ∧
    (computeBroilerResults zeroYieldInputs yieldConfig).hasDivisionByZero =
      false := by
  have h := C8_yield_guard zeroYieldInputs yieldConfig 500 (11/5) rfl rfl rfl
    rfl (by norm_num) (Or.inr ⟨0, rfl, le_refl 0⟩)
  refine ⟨rfl, rfl, rfl, rfl, by norm_num, ⟨0, rfl, le_refl 0⟩, h.1, ?_⟩
  norm_num [computeBroilerResults, sn3Step, sn5Step, sn7Step, sn8Step, sn9Step,
    sn13Step, sn14Step, mortalityFraction, mortalityValid, zeroYieldInputs,
    exInputs, yieldConfig, exConfig]

/-- C3: absence propagation — a missing operand makes the step's metric and
every downstream metric absent — and the flag is set only by zero/invalid
denominators or an invalid mortality fraction (every disjunct requires the
relevant operands to be present), never by a missing input alone. -/
theorem C3_absence_and_flag (inputs : BroilerInputs) (config : BroilerConfig) :
    ((inputs.sn1TargetBroilerMeat = none ∨ inputs.sn2HarvestBirdAvgWeight = none) →
      (computeBroilerResults inputs config).sn3HarvestBirdsNumber = none ∧
      (computeBroilerResults inputs config).sn5OverallPlacement = none ∧
      (computeBroilerResults inputs config).sn8HarvestPerCycle = none ∧
      (computeBroilerResults inputs config).sn9PlacementPerCycle = none ∧
      (computeBroilerResults inputs config).sn14NumberOfFarms = none) ∧
    (inputs.sn4PlannedMortality = none →
      (computeBroilerResults inputs config).sn5OverallPlacement = none ∧
      (computeBroilerResults inputs config).sn9PlacementPerCycle = none ∧
      (computeBroilerResults inputs config).sn14NumberOfFarms = none) ∧
    (inputs.sn6CycleTimeDays = none →
      (computeBroilerResults inputs config).sn7CyclesPerYear = none ∧
      (computeBroilerResults inputs config).sn8HarvestPerCycle = none ∧
      (computeBroilerResults inputs config).sn9PlacementPerCycle = none ∧
      (computeBroilerResults inputs config).sn14NumberOfFarms = none) ∧
    (inputs.sn10FarmCapacity = none →
      (computeBroilerResults inputs config).sn13Density = none ∧
      (computeBroilerResults inputs config).sn14NumberOfFarms = none) ∧
    ((inputs.sn11NumberOfHouses = none ∨ inputs.sn12HouseArea = none) →
      (computeBroilerResults inputs config).sn13Density = none) ∧
    ((computeBroilerResults inputs config).hasDivisionByZero = true →
      (inputs.sn1TargetBroilerMeat.isSome ∧
        inputs.sn2HarvestBirdAvgWeight = some 0) ∨
      inputs.sn6CycleTimeDays = some 0 ∨
      ((computeBroilerResults inputs config).sn3HarvestBirdsNumber.isSome ∧
        (computeBroilerResults inputs config).sn7CyclesPerYear = some 0) ∨
      (inputs.sn10FarmCapacity.isSome ∧ ∃ hh aa,
        inputs.sn11NumberOfHouses = some hh ∧ inputs.sn12HouseArea = some aa ∧
        hh * aa = 0) ∨
      ((computeBroilerResults inputs config).sn9PlacementPerCycle.isSome ∧
        inputs.sn10FarmCapacity = some 0) ∨
      (∃ f, mortalityFraction inputs config = some f ∧ ¬(0 ≤ f ∧ f < 1))) := by
  refine ⟨?_, ?_, ?_, ?_, ?_, ?_⟩
  · intro h
    have hs := sn3Step_none inputs config h
    exact ⟨by rw [cbr_sn3, hs],
      by simp [cbr_sn5, hs, sn5Step_none],
      by simp [cbr_sn8, hs, sn8Step_none],
      by simp [cbr_sn9, hs, sn8Step_none, sn9Step_none],
      by simp [cbr_sn14, hs, sn8Step_none, sn9Step_none, sn14Step_none]⟩
  · intro h
    have hmf := mortalityFraction_none inputs config h
    exact ⟨by simp [cbr_sn5, hmf, sn5Step_none],
      by simp [cbr_sn9, hmf, sn9Step_none],
      by simp [cbr_sn14, hmf, sn9Step_none, sn14Step_none]⟩
  · intro h
    have hs := sn7Step_none inputs config h
    exact ⟨by rw [cbr_sn7, hs],
      by simp [cbr_sn8, hs, sn8Step_none],
      by simp [cbr_sn9, hs, sn8Step_none, sn9Step_none],
      by simp [cbr_sn14, hs, sn8Step_none, sn9Step_none, sn14Step_none]⟩
  · intro h
    exact ⟨by simp [cbr_sn13, sn13Step_none, h],
      by simp [cbr_sn14, h, sn14Step_none]⟩
  · intro h
    rcases h with h | h <;> simp [cbr_sn13, sn13Step_none, h]
  · intro hflag
    rw [cbr_flag] at hflag
    simp only [Bool.or_eq_true, Bool.not_eq_true'] at hflag
    rcases hflag with (((((((h | h) | h) | h) | h) | h) | h) | h)
    · exact Or.inl (sn3Step_flag inputs config h)
    · obtain ⟨hsome, hmf⟩ := sn5Step_flag _ _ h
      exact Or.inr (Or.inr (Or.inr (Or.inr (Or.inr ⟨1, hmf, by norm_num⟩))))
    · exact Or.inr (Or.inl (sn7Step_flag inputs config h))
    · obtain ⟨hsome, h70⟩ := sn8Step_flag _ _ h
      exact Or.inr (Or.inr (Or.inl ⟨hsome, h70⟩))
    · obtain ⟨hsome, hmf⟩ := sn9Step_flag _ _ h
      exact Or.inr (Or.inr (Or.inr (Or.inr (Or.inr ⟨1, hmf, by norm_num⟩))))
    · obtain ⟨h10, hrest⟩ := sn13Step_flag inputs h
      exact Or.inr (Or.inr (Or.inr (Or.inl ⟨h10, hrest⟩)))
    · obtain ⟨hsome, h10⟩ := sn14Step_flag _ _ h
      exact Or.inr (Or.inr (Or.inr (Or.inr (Or.inl ⟨hsome, h10⟩))))
    · obtain ⟨f, hmf, hinv⟩ := mortalityValid_false _ h
      exact Or.inr (Or.inr (Or.inr (Or.inr (Or.inr ⟨f, hmf, hinv⟩))))

/-- Witness for C3: with every input absent, every derived metric is absent and
the flag stays false. -/
theorem C3_absence_and_flag_witness :
    (computeBroilerResults noneInputs exConfig).sn3HarvestBirdsNumber = none ∧
    (computeBroilerResults noneInputs exConfig).sn5OverallPlacement = none ∧
    (computeBroilerResults noneInputs exConfig).sn8HarvestPerCycle = none ∧
    (computeBroilerResults noneInputs exConfig).sn9PlacementPerCycle = none ∧
    (computeBroilerResults noneInputs exConfig).sn14NumberOfFarms = none ∧
    (computeBroilerResults noneInputs exConfig).hasDivisionByZero = false := by
  have h := (C3_absence_and_flag noneInputs exConfig).1 (Or.inl rfl)
  exact ⟨h.1, h.2.1, h.2.2.1, h.2.2.2.1, h.2.2.2.2, rfl⟩

/-- C6: `buildFarmScenarios` always returns exactly three rows; the second
row's farm count is the ceiling and the third's the floor of the base
farms-needed value (the first keeps it exact); and any row's
placement-per-cycle, when present, equals that row's own farm count times the
capacity. -/
theorem C6_three_rows (inputs : BroilerInputs) (config : BroilerConfig)
    (base : BroilerResults) :
    ∃ r0 r1 r2, buildFarmScenarios inputs config base = [r0, r1, r2] ∧
      (∀ f, base.sn14NumberOfFarms = some f →
        r0.farms = some f ∧ r1.farms = some ((⌈f⌉ : ℤ) : ℚ) ∧
        r2.farms = some ((⌊f⌋ : ℤ) : ℚ)) ∧
      (∀ row, (row = r0 ∨ row = r1 ∨ row = r2) →
        ∀ p, row.sn9PlacementPerCycle = some p →
        ∃ fr cap, row.farms = some fr ∧ inputs.sn10FarmCapacity = some cap ∧
          p = fr * cap) := by
  refine ⟨_, _, _, rfl, ?_, ?_⟩
  · intro f hf
    refine ⟨?_, ?_, ?_⟩ <;> simp [makeRow_farms, hf]
  · intro row hrow p hp
    rcases hrow with rfl | rfl | rfl <;>
    · obtain ⟨fr, cap, hfr, hcap, hmul⟩ := makeRow_sn9 _ _ _ _ _ _ _ _ hp
      exact ⟨fr, cap, by rw [makeRow_farms]; exact hfr, hcap, hmul⟩

/-- Witness for C6: exact farms = 2.4 gives ceiling-row farms = 3 and
floor-row farms = 2. -/
theorem C6_three_rows_witness :
    ∃ r0 r1 r2, buildFarmScenarios exInputs exConfig exBase = [r0, r1, r2] ∧
      r0.farms = some (12/5) ∧ r1.farms = some 3 ∧ r2.farms = some 2 := by
  obtain ⟨r0, r1, r2, heq, hA, _⟩ := C6_three_rows exInputs exConfig exBase
  obtain ⟨h0, h1, h2⟩ := hA (12/5) rfl
  have hc : (⌈(12/5 : ℚ)⌉ : ℤ) = 3 := by
    rw [Int.ceil_eq_iff]
    norm_num
  have hfl : (⌊(12/5 : ℚ)⌋ : ℤ) = 2 := by norm_num
  refine ⟨r0, r1, r2, heq, h0, ?_, ?_⟩
  · rw [h1, hc]; norm_num
  · rw [h2, hfl]; norm_num

/-- C7: a scenario row built with a failing guard — that is, not all of:
positive farm candidate, positive capacity present, mortality fraction present
in [0,1), positive cycles-per-year present — keeps the candidate farm count in
`farms` and has null target, birds and placement-per-cycle fields. -/
theorem C7_guard (mf s7 s10 : Option ℚ) (inputs : BroilerInputs)
    (config : BroilerConfig) (lbl : String) (farms : Option ℚ)
    (h : ¬ ∃ f cap m cyc, farms = some f ∧ 0 < f ∧ s10 = some cap ∧ 0 < cap ∧
      mf = some m ∧ 0 ≤ m ∧ m < 1 ∧ s7 = some cyc ∧ 0 < cyc) :
    makeRowForFarms mf s7 s10 inputs config lbl farms =
      { label := lbl, farms := farms, sn1TargetBroilerMeat := none,
        sn3HarvestBirdsNumber := none, sn9PlacementPerCycle := none } :=
  makeRow_guard_fail mf s7 s10 inputs config lbl farms h

/-- Witness for C7: a negative farm candidate fails the guard; the row keeps
`farms = -1` and nulls everywhere else. -/
theorem C7_guard_witness :
    (¬ ∃ f cap m cyc, (some (-1 : ℚ)) = some f ∧ 0 < f ∧
      (some (30000 : ℚ)) = some cap ∧ 0 < cap ∧
      (some (1/20 : ℚ)) = some m ∧ 0 ≤ m ∧ m < 1 ∧
      (some (8 : ℚ)) = some cyc ∧ 0 < cyc) ∧
    makeRowForFarms (some (1/20)) (some 8) (some 30000) exInputs exConfig
      "guard demo" (some (-1)) =
      { label := "guard demo", farms := some (-1),
        sn1TargetBroilerMeat := none, sn3HarvestBirdsNumber := none,
        sn9PlacementPerCycle := none } := by
  have hng : ¬ ∃ f cap m cyc, (some (-1 : ℚ)) = some f ∧ 0 < f ∧
      (some (30000 : ℚ)) = some cap ∧ 0 < cap ∧
      (some (1/20 : ℚ)) = some m ∧ 0 ≤ m ∧ m < 1 ∧
      (some (8 : ℚ)) = some cyc ∧ 0 < cyc := by
    rintro ⟨f, cap, m, cyc, hf, hfp, _⟩
    rw [Option.some_inj] at hf
    subst hf
    norm_num at hfp
  exact ⟨hng, C7_guard _ _ _ exInputs exConfig "guard demo" _ hng⟩

/-- C10 (implicit): in percent mode with a negative raw mortality, `derive`
clamps the fraction to 0 (and so computes the full chain), but
`buildFarmScenarios` recomputes the fraction as raw/100 without the clamp, so
its guard fails and all three scenario rows carry null back-solved target,
birds and placement fields. -/
theorem C10_clamp_mismatch (inputs : BroilerInputs) (config : BroilerConfig)
    (m : ℚ) (hp : config.mortalityAsPercent = true)
    (h4 : inputs.sn4PlannedMortality = some m) (hm : m < 0) :
    mortalityFraction inputs config = some 0 ∧
    scenarioMortalityFraction inputs config = some (m / 100) ∧
    ∀ base : BroilerResults, ∀ row ∈ buildFarmScenarios inputs config base,
      row.sn1TargetBroilerMeat = none ∧ row.sn3HarvestBirdsNumber = none ∧
      row.sn9PlacementPerCycle = none := by
  have hmf : scenarioMortalityFraction inputs config = some (m / 100) := by
    simp [scenarioMortalityFraction, h4, hp]
  refine ⟨by simp [mortalityFraction, h4, hp, le_of_lt hm], hmf, ?_⟩
  intro base row hrow
  have hneg : m / 100 < 0 := div_neg_of_neg_of_pos hm (by norm_num)
  have hng : ∀ farms : Option ℚ, ¬ ∃ f cap mm cyc, farms = some f ∧ 0 < f ∧
      inputs.sn10FarmCapacity = some cap ∧ 0 < cap ∧
      scenarioMortalityFraction inputs config = some mm ∧ 0 ≤ mm ∧ mm < 1 ∧
      base.sn7CyclesPerYear = some cyc ∧ 0 < cyc := by
    rintro farms ⟨f, cap, mm, cyc, _, _, _, _, hmm, hmm0, _⟩
    rw [hmf, Option.some_inj] at hmm
    subst hmm
    linarith
  simp only [buildFarmScenarios, List.mem_cons, List.not_mem_nil, or_false]
    at hrow
  rcases hrow with rfl | rfl | rfl <;>
    rw [makeRow_guard_fail _ _ _ _ _ _ _ (hng _)] <;> exact ⟨rfl, rfl, rfl⟩

/-- Witness for C10: mortality = −5 % — the base chain is fully computed
(farms = 700/803), yet every scenario row is null in its computed fields. -/
theorem C10_clamp_mismatch_witness :
    exConfig.mortalityAsPercent = true ∧
    negMortInputs.sn4PlannedMortality = some (-5) ∧ ((-5 : ℚ) < 0) ∧
    mortalityFraction negMortInputs exConfig = some 0 ∧
    (computeBroilerResults negMortInputs exConfig).sn14NumberOfFarms =
      some (700/803) ∧
    ∀ row ∈ buildFarmScenarios negMortInputs exConfig
        (computeBroilerResults negMortInputs exConfig),
      row.sn1TargetBroilerMeat = none ∧ row.sn3HarvestBirdsNumber = none ∧
      row.sn9PlacementPerCycle = none := by
  have h := C10_clamp_mismatch negMortInputs exConfig (-5) rfl rfl (by norm_num)
  refine ⟨rfl, rfl, by norm_num, h.1, ?_, h.2.2 _⟩
  norm_num [computeBroilerResults, sn3Step, sn5Step, sn7Step, sn8Step, sn9Step,
    sn13Step, sn14Step, mortalityFraction, mortalityValid, negMortInputs,
    exInputs, exConfig]

/-- C1: behaviour of the code at the claim's failing input — percent-mode
mortality 200 normalizes to fraction 2 (out of range), the flag is set, but
the fraction-dependent metrics sn5, sn9 and sn14 are PRESENT (computed with
the negative denominator 1 − 2 = −1), not absent as the claim (and the
source's own comment "keep values null") requires. -/
theorem C1_out_of_range_keeps_values :
    mortalityFraction c1Inputs exConfig = some 2 ∧
    (computeBroilerResults c1Inputs exConfig).hasDivisionByZero = true ∧
    (computeBroilerResults c1Inputs exConfig).sn5OverallPlacement =
      some (-(2500000/11)) ∧
    (computeBroilerResults c1Inputs exConfig).sn9PlacementPerCycle =
      some (-(21000000/803)) ∧
    (computeBroilerResults c1Inputs exConfig).sn14NumberOfFarms =
      some (-(700/803)) := by
  norm_num [computeBroilerResults, sn3Step, sn5Step, sn7Step, sn8Step, sn9Step,
    sn13Step, sn14Step, mortalityFraction, mortalityValid, c1Inputs, exInputs,
    exConfig]
